import Mathlib

/-!
Verification of the callback-correlation engine of `mcp-bear`
(`src/mcp_bear/__init__.py` and `src/mcp_bear/server.py`), a bridge that
turns Bear's fire-and-forget x-callback-url protocol into awaitable RPC
operations.  The Python source is shallowly embedded below: query-parameter
dictionaries become association lists, `asyncio.Future` becomes an explicit
state, the per-family `asyncio.Queue` of futures becomes a list of waiter
ids, and the FastAPI route handlers `success` / `error` registered by
`register_callback` become state-transition functions.
-/

namespace McpBear

/-- Query parameters of an inbound callback request, as an ordered list of
key/value pairs (`starlette.datastructures.QueryParams`). -/
abbrev QueryParams := List (String × String)

/-- `QueryParams.get(key)`: starlette builds an internal dict from the items,
so a repeated key yields its last occurrence; a missing key yields `None`. -/
def qget (q : QueryParams) (key : String) : Option String :=
  (q.reverse.find? (fun kv => kv.1 = key)).map (fun kv => kv.2)

/-- Python `x or default` on an `Optional[str]`: both `None` and the empty
string (falsy) fall through to the default. -/
def pyOr (x : Option String) (d : String) : String :=
  match x with
  | none => d
  | some s => if s = "" then d else s

/-- Digit run of a Python integer literal after its first digit: plain
decimal digits, with single underscores allowed between digits
(`int("1_0") == 10`).  `none` models `ValueError`. -/
def pyIntDigits : Nat → List Char → Option Nat
  | acc, [] => some acc
  | acc, c :: rest =>
    if c.isDigit then pyIntDigits (10 * acc + (c.toNat - 48)) rest
    else if c = '_' then
      match rest with
      | [] => none
      | d :: _ => if d.isDigit then pyIntDigits acc rest else none
    else none

/-- A Python integer literal must start with a digit (no leading
underscore). -/
def pyIntStart : List Char → Option Nat
  | [] => none
  | c :: rest => if c.isDigit then pyIntDigits (c.toNat - 48) rest else none

/-- Modelled from the Python standard library: `int(s)` for `str` input.
Surrounding whitespace is stripped, an optional single sign is allowed, then
a decimal digit run with single underscores between digits.  Anything else
raises `ValueError`, modelled as `none`.  (Non-ASCII decimal digits are not
modelled.) -/
def pyInt (s : String) : Option Int :=
  let l := ((s.data.dropWhile Char.isWhitespace).reverse.dropWhile Char.isWhitespace).reverse
  match l with
  | '+' :: rest => (pyIntStart rest).map (fun n => (n : Int))
  | '-' :: rest => (pyIntStart rest).map (fun n => -(n : Int))
  | rest => (pyIntStart rest).map (fun n => (n : Int))

/-- The state of one `asyncio.Future[QueryParams]`: pending, resolved with a
payload (`set_result`), rejected with an `ErrorResponse(errorCode,
errorMessage)` (`set_exception`), or cancelled (the awaiting caller was
abandoned by cancellation). -/
inductive FutureState
  | pending
  | resolved (payload : QueryParams)
  | rejected (errorCode : Int) (errorMessage : String)
  | cancelled
deriving DecidableEq, Repr

/-- State of one operation family's callback machinery: the
`Queue[Future[QueryParams]]` returned by `register_callback`, holding waiter
ids in FIFO order (head = oldest), plus the state of every future.  Futures
live outside the queue too (their callers hold them), so they are a separate
map. -/
structure CallbackState where
  queue : List Nat
  futures : Nat → FutureState

/-- Outcome of one inbound HTTP GET handled by a `register_callback` route:
`noContent` is the declared 204 response (also returned when `QueueEmpty`
was caught and the callback dropped); `raised` models an uncaught exception
escaping the handler (FastAPI then answers 500, not 204). -/
inductive HandlerOutcome
  | noContent
  | raised
deriving DecidableEq, Repr

/-- `asyncio.Future.set_result`: only a pending future accepts a result;
on a resolved, rejected or cancelled future it raises `InvalidStateError`. -/
def setResult (f : FutureState) (payload : QueryParams) : Option FutureState :=
  match f with
  | .pending => some (.resolved payload)
  | _ => none

/-- `asyncio.Future.set_exception`: same state rule as `set_result`. -/
def setException (f : FutureState) (code : Int) (msg : String) : Option FutureState :=
  match f with
  | .pending => some (.rejected code msg)
  | _ => none

/-- The `success` route of `register_callback`: `queue.get_nowait()` pops the
oldest waiter (on `QueueEmpty` the callback is dropped and 204 returned),
then `future.set_result(request.query_params)`; if the future is no longer
pending, `set_result` raises `InvalidStateError`, which the handler does not
catch (only `QueueEmpty` is caught). -/
def successCallback (p : QueryParams) (s : CallbackState) : CallbackState × HandlerOutcome :=
  match s.queue with
  | [] => (s, .noContent)
  | w :: rest =>
    match setResult (s.futures w) p with
    | some f => (⟨rest, fun x => if x = w then f else s.futures x⟩, .noContent)
    | none => (⟨rest, s.futures⟩, .raised)

/-- The `error` route of `register_callback`: pop the oldest waiter
(`QueueEmpty` caught, callback dropped), then build
`ErrorResponse(errorCode=int(q.get("error-Code") or "0"),
errorMessage=q.get("errorMessage") or "")` and `set_exception` it.  The
`int(...)` call happens after the dequeue; on an unparseable value it raises
`ValueError`, which is not caught. -/
def errorCallback (p : QueryParams) (s : CallbackState) : CallbackState × HandlerOutcome :=
  match s.queue with
  | [] => (s, .noContent)
  | w :: rest =>
    match pyInt (pyOr (qget p "error-Code") "0") with
    | none => (⟨rest, s.futures⟩, .raised)
    | some code =>
      match setException (s.futures w) code (pyOr (qget p "errorMessage") "") with
      | some f => (⟨rest, fun x => if x = w then f else s.futures x⟩, .noContent)
      | none => (⟨rest, s.futures⟩, .raised)

/-- UTF-8 encoding of one code point, as a list of byte values. -/
def utf8Bytes (c : Char) : List Nat :=
  let n := c.toNat
  if n < 0x80 then [n]
  else if n < 0x800 then [0xC0 + n / 0x40, 0x80 + n % 0x40]
  else if n < 0x10000 then [0xE0 + n / 0x1000, 0x80 + n / 0x40 % 0x40, 0x80 + n % 0x40]
  else [0xF0 + n / 0x40000, 0x80 + n / 0x1000 % 0x40, 0x80 + n / 0x40 % 0x40, 0x80 + n % 0x40]

/-- Uppercase hexadecimal digit, as used by `urllib.parse.quote`. -/
def hexDigitChar (n : Nat) : Char :=
  if n < 10 then Char.ofNat (48 + n) else Char.ofNat (55 + n)

/-- Bytes `urllib.parse.quote` never escapes: ASCII letters, digits and
`_.-~`.  `urlencode` calls `quote_via` with its own `safe` argument, which
defaults to the empty string, so no further byte is safe here (in
particular `/` and `:` are escaped). -/
def quoteSafeByte (b : Nat) : Bool :=
  (65 ≤ b && b ≤ 90) || (97 ≤ b && b ≤ 122) || (48 ≤ b && b ≤ 57) ||
    b = 95 || b = 46 || b = 45 || b = 126

/-- Modelled from the Python standard library: `urllib.parse.quote(s, safe="")`
percent-encodes every UTF-8 byte outside the always-safe set, using
uppercase hex. -/
def pyQuote (s : String) : String :=
  String.join ((s.data.flatMap utf8Bytes).map (fun b =>
    if quoteSafeByte b then String.singleton (Char.ofNat b)
    else String.singleton '%' ++ String.singleton (hexDigitChar (b / 16)) ++
      String.singleton (hexDigitChar (b % 16))))

/-- One `key=value` item of `urlencode(params, quote_via=quote)`. -/
def encodePair (kv : String × String) : String :=
  pyQuote kv.1 ++ "=" ++ pyQuote kv.2

/-- Modelled from the Python standard library:
`urllib.parse.urlencode(params, quote_via=quote)` quotes each key and value
(with `safe=""`, `urlencode`'s default) and joins the items with `&`. -/
def urlencode (params : List (String × String)) : String :=
  String.intercalate "&" (params.map encodePair)

/-- `BASE_URL` of both `__init__.py` and `server.py`. -/
def BASE_URL : String := "bear://x-callback-url"

/-- The `x-success` callback target for a family:
`http://{callback_host}:{callback_port}/{family}/success`. -/
def successUrl (host : String) (port : Nat) (family : String) : String :=
  "http://" ++ host ++ ":" ++ toString port ++ "/" ++ family ++ "/success"

/-- The `x-error` callback target for a family:
`http://{callback_host}:{callback_port}/{family}/error`. -/
def errorTargetUrl (host : String) (port : Nat) (family : String) : String :=
  "http://" ++ host ++ ":" ++ toString port ++ "/" ++ family ++ "/error"

/-- `if x is not None: params[k] = x` — a key appended only when the optional
parameter is present (Python dicts keep insertion order). -/
def optParam (k : String) (x : Option String) : List (String × String) :=
  match x with
  | none => []
  | some v => [(k, v)]

end McpBear

namespace McpBear.InitPy

/-! Outbound parameter sets of the nine tools of `__init__.py`, in the
exact key-insertion order of the source. -/

/-- `open_note` of `__init__.py`: fixed window-suppression flags, the two
callback targets, then optional `id` and `title`. -/
def open_note_params (host : String) (port : Nat) (id title : Option String) :
    List (String × String) :=
  [("new_window", "no"), ("float", "no"), ("show_window", "no"), ("open_note", "no"),
   ("selected", "no"), ("pin", "no"), ("edit", "no"),
   ("x-success", successUrl host port "open-note"),
   ("x-error", errorTargetUrl host port "open-note")]
  ++ optParam "id" id ++ optParam "title" title

/-- `create` of `__init__.py`: fixed flags, callback targets, then optional
`title`, `text`, `tags` (comma-joined) and `timestamp` (only when true,
as `"yes"`). -/
def create_params (host : String) (port : Nat) (title text : Option String)
    (tags : Option (List String)) (timestamp : Bool) : List (String × String) :=
  [("open_note", "no"), ("new_window", "no"), ("float", "no"), ("show_window", "no"),
   ("x-success", successUrl host port "create"),
   ("x-error", errorTargetUrl host port "create")]
  ++ optParam "title" title ++ optParam "text" text
  ++ optParam "tags" (tags.map (String.intercalate ","))
  ++ (if timestamp then [("timestamp", "yes")] else [])

/-- `tags` of `__init__.py`: token plus the callback targets only. -/
def tags_params (token host : String) (port : Nat) : List (String × String) :=
  [("token", token),
   ("x-success", successUrl host port "tags"),
   ("x-error", errorTargetUrl host port "tags")]

/-- `open_tag` of `__init__.py`. -/
def open_tag_params (token host : String) (port : Nat) (name : String) :
    List (String × String) :=
  [("name", name), ("token", token),
   ("x-success", successUrl host port "open-tag"),
   ("x-error", errorTargetUrl host port "open-tag")]

/-- `todo` of `__init__.py`. -/
def todo_params (token host : String) (port : Nat) (search : Option String) :
    List (String × String) :=
  [("show_window", "no"), ("token", token),
   ("x-success", successUrl host port "todo"),
   ("x-error", errorTargetUrl host port "todo")]
  ++ optParam "search" search

/-- `today` of `__init__.py`. -/
def today_params (token host : String) (port : Nat) (search : Option String) :
    List (String × String) :=
  [("show_window", "no"), ("token", token),
   ("x-success", successUrl host port "today"),
   ("x-error", errorTargetUrl host port "today")]
  ++ optParam "search" search

/-- `search` of `__init__.py`. -/
def search_params (token host : String) (port : Nat) (term tag : Option String) :
    List (String × String) :=
  [("show_window", "no"), ("token", token),
   ("x-success", successUrl host port "search"),
   ("x-error", errorTargetUrl host port "search")]
  ++ optParam "term" term ++ optParam "tag" tag

/-- `grab_url` of `__init__.py`. -/
def grab_url_params (host : String) (port : Nat) (url : String)
    (tags : Option (List String)) : List (String × String) :=
  [("url", url),
   ("x-success", successUrl host port "grab-url"),
   ("x-error", errorTargetUrl host port "grab-url")]
  ++ optParam "tags" (tags.map (String.intercalate ","))

/-- `add_text` of `__init__.py`: only the callback targets are fixed;
`new_line` is sent (as `"yes"`) only when true and `mode == "append"`. -/
def add_text_params (host : String) (port : Nat)
    (text id title header mode : Option String) (new_line : Bool)
    (tags : Option (List String)) (timestamp : Bool) : List (String × String) :=
  [("x-success", successUrl host port "add-text"),
   ("x-error", errorTargetUrl host port "add-text")]
  ++ optParam "id" id ++ optParam "title" title ++ optParam "text" text
  ++ optParam "header" header ++ optParam "mode" mode
  ++ (if new_line && mode = some "append" then [("new_line", "yes")] else [])
  ++ optParam "tags" (tags.map (String.intercalate ","))
  ++ (if timestamp then [("timestamp", "yes")] else [])

/-! The outbound command strings
`f"{BASE_URL}/{family}?{urlencode(params, quote_via=quote)}"`. -/

/-- Outbound command of `open_note` in `__init__.py`. -/
def open_note_url (host : String) (port : Nat) (id title : Option String) : String :=
  BASE_URL ++ "/open-note?" ++ urlencode (open_note_params host port id title)

/-- Outbound command of `create` in `__init__.py`. -/
def create_url (host : String) (port : Nat) (title text : Option String)
    (tags : Option (List String)) (timestamp : Bool) : String :=
  BASE_URL ++ "/create?" ++ urlencode (create_params host port title text tags timestamp)

/-- Outbound command of `tags` in `__init__.py`. -/
def tags_url (token host : String) (port : Nat) : String :=
  BASE_URL ++ "/tags?" ++ urlencode (tags_params token host port)

/-- Outbound command of `open_tag` in `__init__.py`. -/
def open_tag_url (token host : String) (port : Nat) (name : String) : String :=
  BASE_URL ++ "/open-tag?" ++ urlencode (open_tag_params token host port name)

/-- Outbound command of `todo` in `__init__.py`. -/
def todo_url (token host : String) (port : Nat) (search : Option String) : String :=
  BASE_URL ++ "/todo?" ++ urlencode (todo_params token host port search)

/-- Outbound command of `today` in `__init__.py`. -/
def today_url (token host : String) (port : Nat) (search : Option String) : String :=
  BASE_URL ++ "/today?" ++ urlencode (today_params token host port search)

/-- Outbound command of `search` in `__init__.py`. -/
def search_url (token host : String) (port : Nat) (term tag : Option String) : String :=
  BASE_URL ++ "/search?" ++ urlencode (search_params token host port term tag)

/-- Outbound command of `grab_url` in `__init__.py`. -/
def grab_url_url (host : String) (port : Nat) (url : String)
    (tags : Option (List String)) : String :=
  BASE_URL ++ "/grab-url?" ++ urlencode (grab_url_params host port url tags)

/-- Outbound command of `add_text` in `__init__.py`. -/
def add_text_url (host : String) (port : Nat)
    (text id title header mode : Option String) (new_line : Bool)
    (tags : Option (List String)) (timestamp : Bool) : String :=
  BASE_URL ++ "/add-text?" ++
    urlencode (add_text_params host port text id title header mode new_line tags timestamp)

end McpBear.InitPy

namespace McpBear.ServerPy

/-! `server.py` (`create_server`) defines the same eight tools (no
`add_text`) with its own copies of the parameter-building code; it fires the
command through `webbrowser.open` instead of a silent HTTP GET.  The
builders are embedded again from that file so the two can be compared. -/

/-- `open_note` of `server.py`. -/
def open_note_params (host : String) (port : Nat) (id title : Option String) :
    List (String × String) :=
  [("new_window", "no"), ("float", "no"), ("show_window", "no"), ("open_note", "no"),
   ("selected", "no"), ("pin", "no"), ("edit", "no"),
   ("x-success", successUrl host port "open-note"),
   ("x-error", errorTargetUrl host port "open-note")]
  ++ optParam "id" id ++ optParam "title" title

/-- `create` of `server.py`. -/
def create_params (host : String) (port : Nat) (title text : Option String)
    (tags : Option (List String)) (timestamp : Bool) : List (String × String) :=
  [("open_note", "no"), ("new_window", "no"), ("float", "no"), ("show_window", "no"),
   ("x-success", successUrl host port "create"),
   ("x-error", errorTargetUrl host port "create")]
  ++ optParam "title" title ++ optParam "text" text
  ++ optParam "tags" (tags.map (String.intercalate ","))
  ++ (if timestamp then [("timestamp", "yes")] else [])

/-- `tags` of `server.py`. -/
def tags_params (token host : String) (port : Nat) : List (String × String) :=
  [("token", token),
   ("x-success", successUrl host port "tags"),
   ("x-error", errorTargetUrl host port "tags")]

/-- `open_tag` of `server.py`. -/
def open_tag_params (token host : String) (port : Nat) (name : String) :
    List (String × String) :=
  [("name", name), ("token", token),
   ("x-success", successUrl host port "open-tag"),
   ("x-error", errorTargetUrl host port "open-tag")]

/-- `todo` of `server.py`. -/
def todo_params (token host : String) (port : Nat) (search : Option String) :
    List (String × String) :=
  [("show_window", "no"), ("token", token),
   ("x-success", successUrl host port "todo"),
   ("x-error", errorTargetUrl host port "todo")]
  ++ optParam "search" search

/-- `today` of `server.py`. -/
def today_params (token host : String) (port : Nat) (search : Option String) :
    List (String × String) :=
  [("show_window", "no"), ("token", token),
   ("x-success", successUrl host port "today"),
   ("x-error", errorTargetUrl host port "today")]
  ++ optParam "search" search

/-- `search` of `server.py`. -/
def search_params (token host : String) (port : Nat) (term tag : Option String) :
    List (String × String) :=
  [("show_window", "no"), ("token", token),
   ("x-success", successUrl host port "search"),
   ("x-error", errorTargetUrl host port "search")]
  ++ optParam "term" term ++ optParam "tag" tag

/-- `grab_url` of `server.py`. -/
def grab_url_params (host : String) (port : Nat) (url : String)
    (tags : Option (List String)) : List (String × String) :=
  [("url", url),
   ("x-success", successUrl host port "grab-url"),
   ("x-error", errorTargetUrl host port "grab-url")]
  ++ optParam "tags" (tags.map (String.intercalate ","))

/-- Outbound command of `open_note` in `server.py` (fired through
`webbrowser.open`). -/
def open_note_url (host : String) (port : Nat) (id title : Option String) : String :=
  BASE_URL ++ "/open-note?" ++ urlencode (open_note_params host port id title)

/-- Outbound command of `create` in `server.py`. -/
def create_url (host : String) (port : Nat) (title text : Option String)
    (tags : Option (List String)) (timestamp : Bool) : String :=
  BASE_URL ++ "/create?" ++ urlencode (create_params host port title text tags timestamp)

/-- Outbound command of `tags` in `server.py`. -/
def tags_url (token host : String) (port : Nat) : String :=
  BASE_URL ++ "/tags?" ++ urlencode (tags_params token host port)

/-- Outbound command of `open_tag` in `server.py`. -/
def open_tag_url (token host : String) (port : Nat) (name : String) : String :=
  BASE_URL ++ "/open-tag?" ++ urlencode (open_tag_params token host port name)

/-- Outbound command of `todo` in `server.py`. -/
def todo_url (token host : String) (port : Nat) (search : Option String) : String :=
  BASE_URL ++ "/todo?" ++ urlencode (todo_params token host port search)

/-- Outbound command of `today` in `server.py`. -/
def today_url (token host : String) (port : Nat) (search : Option String) : String :=
  BASE_URL ++ "/today?" ++ urlencode (today_params token host port search)

/-- Outbound command of `search` in `server.py`. -/
def search_url (token host : String) (port : Nat) (term tag : Option String) : String :=
  BASE_URL ++ "/search?" ++ urlencode (search_params token host port term tag)

/-- Outbound command of `grab_url` in `server.py`. -/
def grab_url_url (host : String) (port : Nat) (url : String)
    (tags : Option (List String)) : String :=
  BASE_URL ++ "/grab-url?" ++ urlencode (grab_url_params host port url tags)

end McpBear.ServerPy

namespace McpBear

/-- Hexadecimal digit test for percent-escapes. -/
def isHexCh (c : Char) : Bool :=
  c.isDigit || ('a' ≤ c && c ≤ 'f') || ('A' ≤ c && c ≤ 'F')

/-- Value of one hexadecimal digit. -/
def hexVal (c : Char) : Nat :=
  if c.isDigit then c.toNat - 48
  else if 'a' ≤ c then c.toNat - 87
  else c.toNat - 55

/-- Modelled from the Python standard library, first phase of
`urllib.parse.unquote_plus`: `+` becomes a space and each valid `%XY`
escape becomes the byte `0xXY`; other characters contribute their UTF-8
bytes; an invalid `%` sequence is left as-is. -/
def unquotePlusBytes : List Char → List Nat
  | [] => []
  | '+' :: rest => 32 :: unquotePlusBytes rest
  | '%' :: a :: b :: rest =>
    if isHexCh a && isHexCh b then (hexVal a * 16 + hexVal b) :: unquotePlusBytes rest
    else utf8Bytes '%' ++ unquotePlusBytes (a :: b :: rest)
  | c :: rest => utf8Bytes c ++ unquotePlusBytes rest

/-- UTF-8 decoding with U+FFFD replacement on malformed sequences
(`errors="replace"`), fuelled by the byte count.  A malformed or truncated
sequence yields one replacement character and consumes its lead byte. -/
def utf8Decode : Nat → List Nat → List Char
  | 0, _ => []
  | _ + 1, [] => []
  | f + 1, b :: rest =>
    if b < 0x80 then Char.ofNat b :: utf8Decode f rest
    else if 0xC2 ≤ b && b ≤ 0xDF then
      match rest with
      | b2 :: r2 =>
        if 0x80 ≤ b2 && b2 ≤ 0xBF then
          Char.ofNat ((b - 0xC0) * 64 + (b2 - 0x80)) :: utf8Decode f r2
        else Char.ofNat 0xFFFD :: utf8Decode f rest
      | [] => [Char.ofNat 0xFFFD]
    else if 0xE0 ≤ b && b ≤ 0xEF then
      match rest with
      | b2 :: b3 :: r3 =>
        if (0x80 ≤ b2 && b2 ≤ 0xBF) && (0x80 ≤ b3 && b3 ≤ 0xBF) then
          Char.ofNat ((b - 0xE0) * 4096 + (b2 - 0x80) * 64 + (b3 - 0x80)) :: utf8Decode f r3
        else Char.ofNat 0xFFFD :: utf8Decode f rest
      | _ => Char.ofNat 0xFFFD :: utf8Decode f rest
    else if 0xF0 ≤ b && b ≤ 0xF4 then
      match rest with
      | b2 :: b3 :: b4 :: r4 =>
        if (0x80 ≤ b2 && b2 ≤ 0xBF) && (0x80 ≤ b3 && b3 ≤ 0xBF) && (0x80 ≤ b4 && b4 ≤ 0xBF) then
          Char.ofNat ((b - 0xF0) * 262144 + (b2 - 0x80) * 4096 + (b3 - 0x80) * 64 + (b4 - 0x80)) ::
            utf8Decode f r4
        else Char.ofNat 0xFFFD :: utf8Decode f rest
      | _ => Char.ofNat 0xFFFD :: utf8Decode f rest
    else Char.ofNat 0xFFFD :: utf8Decode f rest

/-- Modelled from the Python standard library: `urllib.parse.unquote_plus`. -/
def unquote_plus (s : String) : String :=
  let bytes := unquotePlusBytes s.data
  String.mk (utf8Decode (bytes.length + 1) bytes)

/-- JSON values as produced by `json.loads` (numbers restricted to
integers; the source never receives nor inspects fractional values). -/
inductive Json
  | null
  | bool (b : Bool)
  | num (n : Int)
  | str (s : String)
  | arr (elems : List Json)
  | obj (fields : List (String × Json))

/-- JSON insignificant whitespace. -/
def jsonWs (l : List Char) : List Char :=
  l.dropWhile (fun c => c = ' ' || c = '\t' || c = '\n' || c = '\r')

/-- Body of a JSON string after the opening quote; returns the decoded
characters and the input after the closing quote.  `none` models a
`json.JSONDecodeError`. -/
def parseStringBody : List Char → Option (List Char × List Char)
  | [] => none
  | '"' :: rest => some ([], rest)
  | '\\' :: e :: rest =>
    match e with
    | '"' => (parseStringBody rest).map (fun sr => ('"' :: sr.1, sr.2))
    | '\\' => (parseStringBody rest).map (fun sr => ('\\' :: sr.1, sr.2))
    | '/' => (parseStringBody rest).map (fun sr => ('/' :: sr.1, sr.2))
    | 'b' => (parseStringBody rest).map (fun sr => (Char.ofNat 8 :: sr.1, sr.2))
    | 'f' => (parseStringBody rest).map (fun sr => (Char.ofNat 12 :: sr.1, sr.2))
    | 'n' => (parseStringBody rest).map (fun sr => ('\n' :: sr.1, sr.2))
    | 'r' => (parseStringBody rest).map (fun sr => ('\r' :: sr.1, sr.2))
    | 't' => (parseStringBody rest).map (fun sr => ('\t' :: sr.1, sr.2))
    | 'u' =>
      match rest with
      | a :: b :: c :: d :: r2 =>
        if isHexCh a && isHexCh b && isHexCh c && isHexCh d then
          (parseStringBody r2).map (fun sr =>
            (Char.ofNat (hexVal a * 4096 + hexVal b * 256 + hexVal c * 16 + hexVal d) :: sr.1,
             sr.2))
        else none
      | _ => none
    | _ => none
  | c :: rest => (parseStringBody rest).map (fun sr => (c :: sr.1, sr.2))

/-- A JSON integer literal; a fractional or exponent part is not modelled
(`none`). -/
def jsonNumber (l : List Char) : Option (Int × List Char) :=
  let signed := match l with
    | '-' :: r => (true, r)
    | _ => (false, l)
  let ds := signed.2.takeWhile Char.isDigit
  let rest := signed.2.dropWhile Char.isDigit
  if ds.isEmpty then none
  else
    match rest with
    | '.' :: _ => none
    | 'e' :: _ => none
    | 'E' :: _ => none
    | _ =>
      let n : Int := ds.foldl (fun a c => 10 * a + ((c.toNat : Int) - 48)) 0
      some (if signed.1 then -n else n, rest)

mutual

/-- Fuelled recursive-descent parser for one JSON value. -/
def jsonValue : Nat → List Char → Option (Json × List Char)
  | 0, _ => none
  | f + 1, input =>
    match jsonWs input with
    | 'n' :: 'u' :: 'l' :: 'l' :: rest => some (.null, rest)
    | 't' :: 'r' :: 'u' :: 'e' :: rest => some (.bool true, rest)
    | 'f' :: 'a' :: 'l' :: 's' :: 'e' :: rest => some (.bool false, rest)
    | '"' :: rest => (parseStringBody rest).map (fun sr => (.str (String.mk sr.1), sr.2))
    | '[' :: rest =>
      match jsonWs rest with
      | ']' :: r2 => some (.arr [], r2)
      | r2 => (jsonItems f r2).map (fun ir => (.arr ir.1, ir.2))
    | '\x7b' :: rest =>
      match jsonWs rest with
      | '\x7d' :: r2 => some (.obj [], r2)
      | r2 => (jsonFields f r2).map (fun fr => (.obj fr.1, fr.2))
    | l => (jsonNumber l).map (fun nr => (.num nr.1, nr.2))

/-- Comma-separated array items up to the closing bracket. -/
def jsonItems : Nat → List Char → Option (List Json × List Char)
  | 0, _ => none
  | f + 1, input => do
    let (v, rest) ← jsonValue f input
    match jsonWs rest with
    | ',' :: r2 => (jsonItems f r2).map (fun ir => (v :: ir.1, ir.2))
    | ']' :: r2 => some ([v], r2)
    | _ => none

/-- Comma-separated object members up to the closing brace. -/
def jsonFields : Nat → List Char → Option (List (String × Json) × List Char)
  | 0, _ => none
  | f + 1, input =>
    match jsonWs input with
    | '"' :: rest => do
      let (k, r1) ← parseStringBody rest
      match jsonWs r1 with
      | ':' :: r2 => do
        let (v, r3) ← jsonValue f r2
        match jsonWs r3 with
        | ',' :: r4 => (jsonFields f r4).map (fun fr => ((String.mk k, v) :: fr.1, fr.2))
        | '\x7d' :: r4 => some ([(String.mk k, v)], r4)
        | _ => none
      | _ => none
    | _ => none

end

/-- Modelled from the Python standard library: `json.loads`, `none` for a
`JSONDecodeError`.  The fuel bound suffices: every two fuel units consume
at least one input character. -/
def json_loads (s : String) : Option Json :=
  match jsonValue (2 * s.length + 2) s.data with
  | some (v, rest) => if jsonWs rest = [] then some v else none
  | none => none

end McpBear

namespace McpBear

/-- Dictionary lookup on parsed JSON object fields (`json.loads` keeps the
last occurrence of a duplicated key): `note.get(k)`, `none` for `None`. -/
def jget (fields : List (String × Json)) (key : String) : Option Json :=
  (fields.reverse.find? (fun kv => kv.1 = key)).map (fun kv => kv.2)

/-- `"k" in note` for a parsed JSON object. -/
def jhas (fields : List (String × Json)) (key : String) : Bool :=
  fields.any (fun kv => kv.1 = key)

/-- `cast(list[dict], ...)` followed by iteration: the decoded JSON must be
an array of objects; `none` models the `TypeError` the comprehensions would
raise on any other shape. -/
def asNoteList : Json → Option (List (List (String × Json)))
  | .arr xs => xs.mapM (fun x =>
      match x with
      | .obj fs => some fs
      | _ => none)
  | _ => none

mutual

/-- Python `repr()` on values produced by `json.loads`: strings are quoted.
Escape corner cases inside `repr` of strings are not modelled. -/
def pyRepr : Json → String
  | .null => "None"
  | .bool true => "True"
  | .bool false => "False"
  | .num n => toString n
  | .str s => "\x27" ++ s ++ "\x27"
  | .arr xs => "[" ++ String.intercalate ", " (pyReprList xs) ++ "]"
  | .obj fs => "\x7b" ++ String.intercalate ", " (pyReprFields fs) ++ "\x7d"

/-- `repr` of each element of a list. -/
def pyReprList : List Json → List String
  | [] => []
  | x :: xs => pyRepr x :: pyReprList xs

/-- `repr` of each `key: value` member of a dict. -/
def pyReprFields : List (String × Json) → List String
  | [] => []
  | kv :: fs => ("\x27" ++ kv.1 ++ "\x27: " ++ pyRepr kv.2) :: pyReprFields fs

end

/-- `str(x)` where `x` is `note.get(k)`: `None` renders as `"None"`, a
string renders unquoted, containers render as their `repr`. -/
def pyStr : Option Json → String
  | none => "None"
  | some .null => "None"
  | some (.bool true) => "True"
  | some (.bool false) => "False"
  | some (.num n) => toString n
  | some (.str s) => s
  | some (.arr xs) => pyRepr (.arr xs)
  | some (.obj fs) => pyRepr (.obj fs)

/-- `f"{note.get('title')} (ID: {note.get('identifier')})"` for one entry of
the decoded `notes` array (`open_tag`, `todo`, `today`, `search`). -/
def formatNote (fs : List (String × Json)) : String :=
  pyStr (jget fs "title") ++ " (ID: " ++ pyStr (jget fs "identifier") ++ ")"

/-- `[note["name"] for note in notes if "name" in note]` of the `tags`
tool: entries without a `"name"` key are skipped. -/
def tagsNames (notes : List (List (String × Json))) : List Json :=
  notes.filterMap (fun fs => jget fs "name")

/-- Result decoding of `open_note` (and the `note` half of `add_text`):
`unquote_plus(res.get("note") or "")`. -/
def open_note_result (res : QueryParams) : String :=
  unquote_plus (pyOr (qget res "note") "")

/-- Result decoding of `create` and `grab_url`:
`res.get("identifier") or ""`. -/
def create_result (res : QueryParams) : String :=
  pyOr (qget res "identifier") ""

/-- Result decoding of `tags`:
`[note["name"] for note in cast(list[dict], json.loads(res.get("tags") or "[]")) if "name" in note]`.
`none` models an exception escaping the decode (bad JSON or non-dict
entries). -/
def tags_result (res : QueryParams) : Option (List Json) :=
  (json_loads (pyOr (qget res "tags") "[]")).bind (fun j => (asNoteList j).map tagsNames)

/-- Result decoding of `open_tag`, `todo`, `today` and `search`:
format every entry of `json.loads(res.get("notes") or "[]")`. -/
def notes_result (res : QueryParams) : Option (List String) :=
  (json_loads (pyOr (qget res "notes") "[]")).bind
    (fun j => (asNoteList j).map (fun notes => notes.map formatNote))

/-- Effects of one tool invocation, in source statement order: putting the
fresh future on the family queue, firing the outbound command, awaiting the
future. -/
inductive ToolEffect
  | enqueueWaiter
  | fireCommand (url : String)
  | awaitWaiter
deriving DecidableEq, Repr

/-- Recognizes the enqueue effect. -/
def isEnqueue : ToolEffect → Bool
  | .enqueueWaiter => true
  | _ => false

/-- Recognizes the command-firing effect. -/
def isFire : ToolEffect → Bool
  | .fireCommand _ => true
  | _ => false

end McpBear

namespace McpBear.InitPy

/-! Effect traces of the nine tool bodies of `__init__.py`: each body runs
`await queue.put(future)`, then builds and fires the outbound URL, then
`await future`. -/

/-- Effect trace of `open_note`. -/
def open_note_trace (host : String) (port : Nat) (id title : Option String) :
    List ToolEffect :=
  [.enqueueWaiter, .fireCommand (open_note_url host port id title), .awaitWaiter]

/-- Effect trace of `create`. -/
def create_trace (host : String) (port : Nat) (title text : Option String)
    (tags : Option (List String)) (timestamp : Bool) : List ToolEffect :=
  [.enqueueWaiter, .fireCommand (create_url host port title text tags timestamp),
   .awaitWaiter]

/-- Effect trace of `tags`. -/
def tags_trace (token host : String) (port : Nat) : List ToolEffect :=
  [.enqueueWaiter, .fireCommand (tags_url token host port), .awaitWaiter]

/-- Effect trace of `open_tag`. -/
def open_tag_trace (token host : String) (port : Nat) (name : String) : List ToolEffect :=
  [.enqueueWaiter, .fireCommand (open_tag_url token host port name), .awaitWaiter]

/-- Effect trace of `todo`. -/
def todo_trace (token host : String) (port : Nat) (search : Option String) :
    List ToolEffect :=
  [.enqueueWaiter, .fireCommand (todo_url token host port search), .awaitWaiter]

/-- Effect trace of `today`. -/
def today_trace (token host : String) (port : Nat) (search : Option String) :
    List ToolEffect :=
  [.enqueueWaiter, .fireCommand (today_url token host port search), .awaitWaiter]

/-- Effect trace of `search`. -/
def search_trace (token host : String) (port : Nat) (term tag : Option String) :
    List ToolEffect :=
  [.enqueueWaiter, .fireCommand (search_url token host port term tag), .awaitWaiter]

/-- Effect trace of `grab_url`. -/
def grab_url_trace (host : String) (port : Nat) (url : String)
    (tags : Option (List String)) : List ToolEffect :=
  [.enqueueWaiter, .fireCommand (grab_url_url host port url tags), .awaitWaiter]

/-- Effect trace of `add_text`. -/
def add_text_trace (host : String) (port : Nat)
    (text id title header mode : Option String) (new_line : Bool)
    (tags : Option (List String)) (timestamp : Bool) : List ToolEffect :=
  [.enqueueWaiter,
   .fireCommand (add_text_url host port text id title header mode new_line tags timestamp),
   .awaitWaiter]

end McpBear.InitPy

namespace McpBear

/-- `await queue.put(future)` by a caller starting an operation: the fresh
waiter is appended at the tail of the family queue (`asyncio.Queue` is
unbounded, so `put` always succeeds). -/
def putWaiter (w : Nat) (s : CallbackState) : CallbackState :=
  ⟨s.queue ++ [w], s.futures⟩

/-- Which of the two routes of a family an inbound callback hits. -/
inductive CallbackKind
  | success
  | error
deriving DecidableEq, Repr

/-- Dispatch one inbound callback to the matching route handler. -/
def callbackStep (k : CallbackKind) (p : QueryParams) (s : CallbackState) :
    CallbackState × HandlerOutcome :=
  match k with
  | .success => successCallback p s
  | .error => errorCallback p s

/-- The future state a callback hands to a pending waiter: a success
callback resolves it with the full query-parameter mapping, an error
callback rejects it with the parsed code and message (`none` when the
`error-Code` value does not parse and the handler would raise instead). -/
def callbackPayload (k : CallbackKind) (p : QueryParams) : Option FutureState :=
  match k with
  | .success => some (.resolved p)
  | .error =>
    (pyInt (pyOr (qget p "error-Code") "0")).map
      (fun c => .rejected c (pyOr (qget p "errorMessage") ""))

end McpBear

namespace McpBear

/-- The property C7 asks of a tool body's effect trace: a waiter enqueue
occurs, a command firing occurs, and the first enqueue strictly precedes
the first firing. -/
def enqueuePrecedesFire (t : List ToolEffect) : Prop :=
  t.any isEnqueue ∧ t.any isFire ∧ t.findIdx isEnqueue < t.findIdx isFire

/-- Every tool body has the shape enqueue-fire-await, which satisfies
`enqueuePrecedesFire`. -/
theorem enqueuePrecedesFire_shape (u : String) :
    enqueuePrecedesFire [.enqueueWaiter, .fireCommand u, .awaitWaiter] := by
  refine ⟨?_, ?_, ?_⟩ <;>
    simp [enqueuePrecedesFire, isEnqueue, isFire, List.findIdx_cons]

/-- C5: a success or error callback arriving when the family's pending queue
is empty is dropped without raising (`QueueEmpty` is caught), the handler
still returns its declared 204 no-content response, and the state is left
unchanged, so waiters enqueued afterwards are unaffected. -/
theorem spurious_callback_dropped (s : CallbackState) (p : QueryParams)
    (hq : s.queue = []) :
    successCallback p s = (s, .noContent) ∧
    errorCallback p s = (s, .noContent) ∧
    (∀ w, putWaiter w (successCallback p s).1 = putWaiter w s) := by
  have hs : successCallback p s = (s, .noContent) := by
    unfold successCallback
    rw [hq]
  have he : errorCallback p s = (s, .noContent) := by
    unfold errorCallback
    rw [hq]
  exact ⟨hs, he, fun w => by rw [hs]⟩

/-- Witness for C5 at a concrete empty-queue state. -/
theorem spurious_callback_dropped_witness :
    successCallback [("note", "x")] ⟨[], fun _ => .pending⟩ =
      (⟨[], fun _ => .pending⟩, .noContent) ∧
    errorCallback [("note", "x")] ⟨[], fun _ => .pending⟩ =
      (⟨[], fun _ => .pending⟩, .noContent) :=
  ⟨(spurious_callback_dropped ⟨[], fun _ => .pending⟩ [("note", "x")] rfl).1,
   (spurious_callback_dropped ⟨[], fun _ => .pending⟩ [("note", "x")] rfl).2.1⟩

/-- C6: result decoding is lenient about absent top-level fields: `open_note`
with no `note` parameter returns the empty string, and `tags` with no `tags`
parameter returns the empty list; neither absence is a hard failure. -/
theorem lenient_absent_fields (res : QueryParams) :
    (qget res "note" = none → open_note_result res = "") ∧
    (qget res "tags" = none → tags_result res = some []) := by
  constructor
  · intro h
    unfold open_note_result
    rw [h]
    rfl
  · intro h
    unfold tags_result
    rw [h]
    rfl

/-- Witness for C6 at the empty payload. -/
theorem lenient_absent_fields_witness :
    open_note_result [] = "" ∧ tags_result [] = some [] :=
  ⟨(lenient_absent_fields []).1 rfl, (lenient_absent_fields []).2 rfl⟩

/-- C9: for each of the eight families defined in both implementations, the
`server.py` tool (firing through `webbrowser.open`) and the `__init__.py`
tool (firing through a silent HTTP GET) build the identical outbound
command string from the same token, callback host/port and parameters. -/
theorem init_server_same_commands :
    (∀ host port id title,
      InitPy.open_note_url host port id title = ServerPy.open_note_url host port id title) ∧
    (∀ host port title text tags timestamp,
      InitPy.create_url host port title text tags timestamp =
        ServerPy.create_url host port title text tags timestamp) ∧
    (∀ token host port, InitPy.tags_url token host port = ServerPy.tags_url token host port) ∧
    (∀ token host port name,
      InitPy.open_tag_url token host port name = ServerPy.open_tag_url token host port name) ∧
    (∀ token host port search,
      InitPy.todo_url token host port search = ServerPy.todo_url token host port search) ∧
    (∀ token host port search,
      InitPy.today_url token host port search = ServerPy.today_url token host port search) ∧
    (∀ token host port term tag,
      InitPy.search_url token host port term tag = ServerPy.search_url token host port term tag) ∧
    (∀ host port url tags,
      InitPy.grab_url_url host port url tags = ServerPy.grab_url_url host port url tags) := by
  refine ⟨?_, ?_, ?_, ?_, ?_, ?_, ?_, ?_⟩ <;> intros <;> rfl

/-- C7: in every one of the nine tool bodies, the fresh waiter is put on the
family queue strictly before the outbound command is fired. -/
theorem enqueue_before_fire (token host : String) (port : Nat)
    (id title text header mode term tag search : Option String)
    (tagName urlArg : String) (tags : Option (List String))
    (timestamp new_line : Bool) :
    enqueuePrecedesFire (InitPy.open_note_trace host port id title) ∧
    enqueuePrecedesFire (InitPy.create_trace host port title text tags timestamp) ∧
    enqueuePrecedesFire (InitPy.tags_trace token host port) ∧
    enqueuePrecedesFire (InitPy.open_tag_trace token host port tagName) ∧
    enqueuePrecedesFire (InitPy.todo_trace token host port search) ∧
    enqueuePrecedesFire (InitPy.today_trace token host port search) ∧
    enqueuePrecedesFire (InitPy.search_trace token host port term tag) ∧
    enqueuePrecedesFire (InitPy.grab_url_trace host port urlArg tags) ∧
    enqueuePrecedesFire
      (InitPy.add_text_trace host port text id title header mode new_line tags timestamp) :=
  ⟨enqueuePrecedesFire_shape _, enqueuePrecedesFire_shape _, enqueuePrecedesFire_shape _,
   enqueuePrecedesFire_shape _, enqueuePrecedesFire_shape _, enqueuePrecedesFire_shape _,
   enqueuePrecedesFire_shape _, enqueuePrecedesFire_shape _, enqueuePrecedesFire_shape _⟩

end McpBear

namespace McpBear

/-- One inbound callback served while the oldest waiter is still pending:
the queue advances by one, that waiter receives exactly this callback's
payload, every other future is untouched, and the response is 204. -/
theorem callbackStep_pending_head (s : CallbackState) (w : Nat) (rest : List Nat)
    (k : CallbackKind) (p : QueryParams) (f : FutureState)
    (hq : s.queue = w :: rest) (hw : s.futures w = .pending)
    (hp : callbackPayload k p = some f) :
    (callbackStep k p s).1.queue = rest ∧
    (callbackStep k p s).1.futures w = f ∧
    (∀ x, x ≠ w → (callbackStep k p s).1.futures x = s.futures x) ∧
    (callbackStep k p s).2 = .noContent := by
  obtain ⟨q, fut⟩ := s
  change q = w :: rest at hq
  change fut w = .pending at hw
  subst hq
  cases k with
  | success =>
    simp only [callbackPayload, Option.some.injEq] at hp
    subst hp
    have e : successCallback p ⟨w :: rest, fut⟩ =
        (⟨rest, fun x => if x = w then .resolved p else fut x⟩, .noContent) := by
      unfold successCallback
      dsimp only
      rw [hw]
      rfl
    refine ⟨by rw [callbackStep, e], by rw [callbackStep, e]; simp,
      fun x hx => by rw [callbackStep, e]; simp [hx], by rw [callbackStep, e]⟩
  | error =>
    simp only [callbackPayload] at hp
    cases hcode : pyInt (pyOr (qget p "error-Code") "0") with
    | none => rw [hcode] at hp; simp at hp
    | some c =>
      rw [hcode] at hp
      simp only [Option.map_some', Option.some.injEq] at hp
      subst hp
      have e : errorCallback p ⟨w :: rest, fut⟩ =
          (⟨rest, fun x =>
             if x = w then .rejected c (pyOr (qget p "errorMessage") "") else fut x⟩,
           .noContent) := by
        unfold errorCallback
        dsimp only
        rw [hcode]
        dsimp only
        rw [hw]
        rfl
      refine ⟨by rw [callbackStep, e], by rw [callbackStep, e]; simp,
        fun x hx => by rw [callbackStep, e]; simp [hx], by rw [callbackStep, e]⟩

/-- C1: for two sequential calls whose waiters sit in FIFO order on the
family queue, callbacks delivered in that same order resolve each caller's
waiter with exactly the payload of its own callback (success or error
alike), the queue advances past both, and both handlers answer 204. -/
theorem fifo_correlation (s : CallbackState) (w1 w2 : Nat) (rest : List Nat)
    (k1 k2 : CallbackKind) (p1 p2 : QueryParams) (f1 f2 : FutureState)
    (hq : s.queue = w1 :: w2 :: rest)
    (hw1 : s.futures w1 = .pending) (hw2 : s.futures w2 = .pending)
    (hne : w1 ≠ w2)
    (hp1 : callbackPayload k1 p1 = some f1)
    (hp2 : callbackPayload k2 p2 = some f2) :
    (callbackStep k2 p2 (callbackStep k1 p1 s).1).1.futures w1 = f1 ∧
    (callbackStep k2 p2 (callbackStep k1 p1 s).1).1.futures w2 = f2 ∧
    (callbackStep k2 p2 (callbackStep k1 p1 s).1).1.queue = rest ∧
    (callbackStep k1 p1 s).2 = .noContent ∧
    (callbackStep k2 p2 (callbackStep k1 p1 s).1).2 = .noContent := by
  obtain ⟨hq1, hf1, hoth1, ho1⟩ := callbackStep_pending_head s w1 (w2 :: rest) k1 p1 f1 hq hw1 hp1
  have hw2s1 : (callbackStep k1 p1 s).1.futures w2 = .pending := by
    rw [hoth1 w2 (Ne.symm hne)]
    exact hw2
  obtain ⟨hq2, hf2, hoth2, ho2⟩ :=
    callbackStep_pending_head (callbackStep k1 p1 s).1 w2 rest k2 p2 f2 hq1 hw2s1 hp2
  refine ⟨?_, hf2, hq2, ho1, ho2⟩
  rw [hoth2 w1 hne]
  exact hf1

/-- Witness for C1: two pending waiters, a success then an error callback. -/
theorem fifo_correlation_witness :
    (callbackStep .error [("errorMessage", "bad")]
        (callbackStep .success [("identifier", "A")] ⟨[0, 1], fun _ => .pending⟩).1).1.futures 0 =
      .resolved [("identifier", "A")] ∧
    (callbackStep .error [("errorMessage", "bad")]
        (callbackStep .success [("identifier", "A")] ⟨[0, 1], fun _ => .pending⟩).1).1.futures 1 =
      .rejected 0 "bad" := by
  have h := fifo_correlation ⟨[0, 1], fun _ => .pending⟩ 0 1 [] .success .error
    [("identifier", "A")] [("errorMessage", "bad")] (.resolved [("identifier", "A")])
    (.rejected 0 "bad") rfl rfl rfl (by decide) rfl (by decide)
  exact ⟨h.1, h.2.1⟩

/-- C2 counterexample: a late success callback for a cancelled waiter is not
dropped silently — `set_result` raises `InvalidStateError`, which escapes
the handler, so the response is not the no-content one the claim
describes. -/
theorem late_callback_not_silent :
    (successCallback [("note", "x")] ⟨[0], fun _ => .cancelled⟩).2 = .raised ∧
    HandlerOutcome.raised ≠ HandlerOutcome.noContent :=
  ⟨rfl, by decide⟩

/-- C2 amended: after a waiter is abandoned (cancelled — the code has no
timeout of its own), a late callback still advances the queue past the dead
entry, never touches any other caller's future, and a subsequent legitimate
callback is served normally; the cancelled state is distinguishable from an
application-error rejection; but the late callback raises out of the
handler instead of being dropped silently. -/
theorem late_callback_after_cancel (s : CallbackState) (w : Nat) (rest : List Nat)
    (p : QueryParams)
    (hq : s.queue = w :: rest) (hc : s.futures w = .cancelled) :
    (successCallback p s).1.queue = rest ∧
    (∀ x, (successCallback p s).1.futures x = s.futures x) ∧
    (successCallback p s).2 = .raised ∧
    (∀ w2 rest2 p2, rest = w2 :: rest2 → s.futures w2 = .pending →
      (successCallback p2 (successCallback p s).1).1.futures w2 = .resolved p2 ∧
      (successCallback p2 (successCallback p s).1).2 = .noContent) ∧
    (∀ c m, FutureState.cancelled ≠ FutureState.rejected c m) := by
  obtain ⟨q, fut⟩ := s
  change q = w :: rest at hq
  change fut w = .cancelled at hc
  subst hq
  have e1 : successCallback p ⟨w :: rest, fut⟩ = (⟨rest, fut⟩, .raised) := by
    unfold successCallback
    dsimp only
    rw [hc]
    rfl
  refine ⟨by rw [e1], fun x => by rw [e1], by rw [e1], ?_, fun c m => by simp⟩
  intro w2 rest2 p2 hr hp2
  subst hr
  change fut w2 = .pending at hp2
  have e2 : successCallback p2 ⟨w2 :: rest2, fut⟩ =
      (⟨rest2, fun x => if x = w2 then .resolved p2 else fut x⟩, .noContent) := by
    unfold successCallback
    dsimp only
    rw [hp2]
    rfl
  rw [e1, e2]
  exact ⟨by simp, rfl⟩

/-- Witness for C2's amended statement at a concrete two-waiter state. -/
theorem late_callback_after_cancel_witness :
    (successCallback [("note", "y")] ⟨[5, 6], fun _ => .cancelled⟩).1.queue = [6] ∧
    (successCallback [("note", "y")] ⟨[5, 6], fun _ => .cancelled⟩).2 = .raised := by
  have h := late_callback_after_cancel ⟨[5, 6], fun _ => .cancelled⟩ 5 [6] [("note", "y")] rfl rfl
  exact ⟨h.1, h.2.2.1⟩

/-- C3 counterexample: an unparseable non-empty `error-Code` does not
default to 0 — `int("abc")` raises `ValueError` inside the handler, and the
already-dequeued waiter is never rejected at all. -/
theorem error_code_unparseable_raises :
    (errorCallback [("error-Code", "abc"), ("errorMessage", "m")]
      ⟨[0], fun _ => .pending⟩).2 = .raised ∧
    (errorCallback [("error-Code", "abc"), ("errorMessage", "m")]
      ⟨[0], fun _ => .pending⟩).1.futures 0 = .pending := by
  constructor
  · decide
  · decide

/-- C3 amended: an error callback with a pending waiter rejects it with the
code parsed by Python `int` semantics from `error-Code` — defaulting to 0
when that parameter is absent (or empty, which Python treats as falsy) —
and with `errorMessage` defaulting to the empty string when absent; when
the non-empty `error-Code` value is unparseable, the handler instead raises
`ValueError` and the dequeued waiter is left pending forever. -/
theorem error_callback_typed_failure (s : CallbackState) (w : Nat) (rest : List Nat)
    (p : QueryParams) (hq : s.queue = w :: rest) (hw : s.futures w = .pending) :
    (∀ c : Int, pyInt (pyOr (qget p "error-Code") "0") = some c →
      errorCallback p s =
        (⟨rest, fun x =>
           if x = w then .rejected c (pyOr (qget p "errorMessage") "") else s.futures x⟩,
         .noContent)) ∧
    (qget p "error-Code" = none →
      (errorCallback p s).1.futures w = .rejected 0 (pyOr (qget p "errorMessage") "")) ∧
    (qget p "errorMessage" = none → pyOr (qget p "errorMessage") "" = "") ∧
    (pyInt (pyOr (qget p "error-Code") "0") = none →
      errorCallback p s = (⟨rest, s.futures⟩, .raised)) := by
  obtain ⟨q, fut⟩ := s
  change q = w :: rest at hq
  change fut w = .pending at hw
  subst hq
  have main : ∀ c : Int, pyInt (pyOr (qget p "error-Code") "0") = some c →
      errorCallback p ⟨w :: rest, fut⟩ =
        (⟨rest, fun x =>
           if x = w then .rejected c (pyOr (qget p "errorMessage") "") else fut x⟩,
         .noContent) := by
    intro c hc
    unfold errorCallback
    dsimp only
    rw [hc]
    dsimp only
    rw [hw]
    rfl
  refine ⟨main, ?_, ?_, ?_⟩
  · intro h
    have hz : pyInt (pyOr (qget p "error-Code") "0") = some 0 := by
      rw [h]
      rfl
    rw [main 0 hz]
    simp
  · intro h
    rw [h]
    rfl
  · intro h
    unfold errorCallback
    dsimp only
    rw [h]

/-- Witness for C3's amended statement: absent `error-Code` and
`errorMessage` yield a rejection with code 0 and empty message. -/
theorem error_callback_typed_failure_witness :
    (errorCallback [] ⟨[3], fun _ => .pending⟩).1.futures 3 = .rejected 0 "" ∧
    (errorCallback [] ⟨[3], fun _ => .pending⟩).2 = .noContent := by
  have h := (error_callback_typed_failure ⟨[3], fun _ => .pending⟩ 3 [] [] rfl rfl).1 0 (by decide)
  constructor
  · rw [h]
    decide
  · rw [h]

end McpBear

namespace McpBear

/-- C4 counterexample: the `create` command contains the fixed
window-suppression key `open_note`, which is neither a supplied parameter
nor one of the two callback targets, so the "no other keys" part of the
claim fails. -/
theorem create_extra_fixed_keys :
    "open_note" ∈
      (InitPy.create_params "localhost" 8888 (some "T") (some "B") (some ["x", "y"])
        false).map Prod.fst ∧
    "open_note" ∉ (["title", "text", "tags", "timestamp", "x-success", "x-error"] :
      List String) := by
  decide

/-- C4 amended: the `create` command's keys are exactly the four fixed
window-suppression flags, the two callback targets, and the supplied
optional parameters in source order (absent/None ones omitted, `timestamp`
only when true); every supplied parameter appears percent-encoded as its
own `key=value` item of the command's query string. -/
theorem create_command_content (host : String) (port : Nat) (title text : Option String)
    (tags : Option (List String)) (timestamp : Bool) :
    (InitPy.create_params host port title text tags timestamp).map Prod.fst =
      ["open_note", "new_window", "float", "show_window", "x-success", "x-error"]
      ++ (match title with | some _ => ["title"] | none => [])
      ++ (match text with | some _ => ["text"] | none => [])
      ++ (match tags with | some _ => ["tags"] | none => [])
      ++ (if timestamp then ["timestamp"] else []) ∧
    (∀ t, title = some t →
      encodePair ("title", t) ∈
        (InitPy.create_params host port title text tags timestamp).map encodePair) ∧
    (∀ t, text = some t →
      encodePair ("text", t) ∈
        (InitPy.create_params host port title text tags timestamp).map encodePair) ∧
    (∀ l, tags = some l →
      encodePair ("tags", String.intercalate "," l) ∈
        (InitPy.create_params host port title text tags timestamp).map encodePair) ∧
    (timestamp = true →
      encodePair ("timestamp", "yes") ∈
        (InitPy.create_params host port title text tags timestamp).map encodePair) ∧
    InitPy.create_url host port title text tags timestamp =
      BASE_URL ++ "/create?" ++
        String.intercalate "&"
          ((InitPy.create_params host port title text tags timestamp).map encodePair) := by
  refine ⟨?_, ?_, ?_, ?_, ?_, rfl⟩
  · cases title <;> cases text <;> cases tags <;> cases timestamp <;>
      simp [InitPy.create_params, optParam]
  · intro t ht
    subst ht
    apply List.mem_map_of_mem
    simp [InitPy.create_params, optParam]
  · intro t ht
    subst ht
    apply List.mem_map_of_mem
    simp [InitPy.create_params, optParam]
  · intro l hl
    subst hl
    apply List.mem_map_of_mem
    simp [InitPy.create_params, optParam]
  · intro ht
    subst ht
    apply List.mem_map_of_mem
    simp [InitPy.create_params, optParam]

/-- Witness for C4's amended statement at the spec's round-trip scenario. -/
theorem create_command_content_witness :
    encodePair ("title", "T") ∈
      (InitPy.create_params "localhost" 8888 (some "T") (some "B") (some ["x", "y"])
        true).map encodePair ∧
    encodePair ("text", "B") ∈
      (InitPy.create_params "localhost" 8888 (some "T") (some "B") (some ["x", "y"])
        true).map encodePair ∧
    encodePair ("tags", "x,y") ∈
      (InitPy.create_params "localhost" 8888 (some "T") (some "B") (some ["x", "y"])
        true).map encodePair ∧
    encodePair ("timestamp", "yes") ∈
      (InitPy.create_params "localhost" 8888 (some "T") (some "B") (some ["x", "y"])
        true).map encodePair := by
  have h := create_command_content "localhost" 8888 (some "T") (some "B") (some ["x", "y"]) true
  exact ⟨h.2.1 "T" rfl, h.2.2.1 "B" rfl, h.2.2.2.1 ["x", "y"] rfl, h.2.2.2.2.1 rfl⟩

/-- The property C8 asks of one family's parameter set: both callback
targets are present as keys, with the family's success/error addresses as
values, and each survives into the encoded query string as its own item. -/
def hasCallbackTargets (host : String) (port : Nat) (family : String)
    (params : List (String × String)) : Prop :=
  ("x-success", successUrl host port family) ∈ params ∧
  ("x-error", errorTargetUrl host port family) ∈ params ∧
  encodePair ("x-success", successUrl host port family) ∈ params.map encodePair ∧
  encodePair ("x-error", errorTargetUrl host port family) ∈ params.map encodePair

/-- Membership of the two raw pairs suffices for `hasCallbackTargets`. -/
theorem hasCallbackTargets_of_mem (host : String) (port : Nat) (family : String)
    (params : List (String × String))
    (h1 : ("x-success", successUrl host port family) ∈ params)
    (h2 : ("x-error", errorTargetUrl host port family) ∈ params) :
    hasCallbackTargets host port family params :=
  ⟨h1, h2, List.mem_map_of_mem _ h1, List.mem_map_of_mem _ h2⟩

/-- C8: every one of the nine families' outbound parameter sets carries
`x-success` and `x-error` set to
`http://{host}:{port}/{family}/success` and `.../error`, for every
parameter combination. -/
theorem callback_targets_always_present (token host : String) (port : Nat)
    (id title text header mode term tag search : Option String)
    (tagName urlArg : String) (tags : Option (List String))
    (timestamp new_line : Bool) :
    hasCallbackTargets host port "open-note" (InitPy.open_note_params host port id title) ∧
    hasCallbackTargets host port "create"
      (InitPy.create_params host port title text tags timestamp) ∧
    hasCallbackTargets host port "tags" (InitPy.tags_params token host port) ∧
    hasCallbackTargets host port "open-tag" (InitPy.open_tag_params token host port tagName) ∧
    hasCallbackTargets host port "todo" (InitPy.todo_params token host port search) ∧
    hasCallbackTargets host port "today" (InitPy.today_params token host port search) ∧
    hasCallbackTargets host port "search" (InitPy.search_params token host port term tag) ∧
    hasCallbackTargets host port "grab-url" (InitPy.grab_url_params host port urlArg tags) ∧
    hasCallbackTargets host port "add-text"
      (InitPy.add_text_params host port text id title header mode new_line tags timestamp) := by
  refine ⟨?_, ?_, ?_, ?_, ?_, ?_, ?_, ?_, ?_⟩ <;>
    apply hasCallbackTargets_of_mem <;>
      simp [InitPy.open_note_params, InitPy.create_params, InitPy.tags_params,
        InitPy.open_tag_params, InitPy.todo_params, InitPy.today_params,
        InitPy.search_params, InitPy.grab_url_params, InitPy.add_text_params, optParam]

/-- An object without a key yields `None` from `dict.get`. -/
theorem jget_eq_none_of_jhas_false (fs : List (String × Json)) (key : String)
    (h : jhas fs key = false) : jget fs key = none := by
  unfold jhas at h
  rw [List.any_eq_false] at h
  unfold jget
  rw [Option.map_eq_none', List.find?_eq_none]
  intro x hx
  exact h x (List.mem_reverse.mp hx)

/-- C10: in the formatted note lists of `open_tag`, `todo`, `today` and
`search`, a missing `title` or `identifier` key renders as the literal
string `None` in its position (e.g. `None (ID: None)`), not as an empty
string, while the `tags` tool skips an entry lacking a `name` key
entirely. -/
theorem absent_fields_render_none_literal (fs : List (String × Json))
    (notes : List (List (String × Json))) :
    (jget fs "title" = none →
      formatNote fs = "None" ++ " (ID: " ++ pyStr (jget fs "identifier") ++ ")") ∧
    (jget fs "identifier" = none →
      formatNote fs = pyStr (jget fs "title") ++ " (ID: " ++ "None" ++ ")") ∧
    (jget fs "title" = none → jget fs "identifier" = none →
      formatNote fs = "None (ID: None)") ∧
    (jhas fs "name" = false → tagsNames (fs :: notes) = tagsNames notes) := by
  refine ⟨?_, ?_, ?_, ?_⟩
  · intro h
    unfold formatNote
    rw [h]
    rfl
  · intro h
    unfold formatNote
    rw [h]
    rfl
  · intro h1 h2
    unfold formatNote
    rw [h1, h2]
    decide
  · intro h
    have hn := jget_eq_none_of_jhas_false fs "name" h
    simp [tagsNames, hn]

/-- Witness for C10: an entry with neither `title` nor `identifier` formats
as `None (ID: None)`, and an entry without `name` contributes no tag. -/
theorem absent_fields_render_none_literal_witness :
    formatNote [("x", Json.num 1)] = "None (ID: None)" ∧
    tagsNames [[("x", Json.num 1)]] = tagsNames [] := by
  have h := absent_fields_render_none_literal [("x", Json.num 1)] []
  exact ⟨h.2.2.1 rfl rfl, h.2.2.2 rfl⟩

end McpBear
